import Mathlib

/-!
Verification of the Ken-Do menu-invocation / window-visibility core
(`KenDoApp` in the main-process source file).

The embedding models the single-threaded Electron event loop as a state
machine.  The state carries the overlay window attributes (`visible`,
`focusable`, `ignoreMouseEvents`), the `hideTimeout` field (an optional
timer handle, as in the source), the set of pending `setTimeout` timers,
a millisecond clock, and a trace of externally observable actions
(`window.hide()`, `window.show()`, `webContents.send(`show-menu`, …)`,
`backend.simulateShortcut(…)`, console log lines).

Handlers are translated directly from the source:
  * `hideWindow`      — the `ipcMain.on(`hide-window`, …)` handler (lines 91–98);
  * `showMenu`        — the shortcut handler `showMenu()` (lines 121–139),
    split into the `Promise.all` join (`promiseAll2`), the `.then`
    callback (`showMenuThen`, lines 123–134, with the
    `if (this.hideTimeout) clearTimeout(...)` step as `cancelPendingHide`)
    and the `.catch` callback (`showMenuCatch`, lines 136–138);
  * `simulateShortcutHandler` — the `ipcMain.on(`simulate-shortcut`, …)`
    handler (lines 108–116).

Time passing fires every due timer (the timer callback of lines 94–97:
`window.hide(); hideTimeout = null`).  A `triggerInvocation` event models
a shortcut press whose two backend queries settle `resolveDelay`
milliseconds later, in either arrival order.
-/

namespace KenDo

/-- Snapshot of the focused window returned by `backend.getFocusedWindow()`. -/
structure FocusedWindowInfo where
  wmClass : String
  deriving DecidableEq

/-- Pointer position returned by `backend.getPointer()`. -/
structure PointerPosition where
  x : Int
  y : Int
  deriving DecidableEq

/-- Externally observable actions of the main process. -/
inductive Action where
  | hideCall : Action
  | showCall : Action
  | sendShowMenu : PointerPosition → Action
  | simulate : String → Action
  | logMsg : String → Action
  deriving DecidableEq

/-- The mutable state of `KenDoApp` together with the event-loop bookkeeping.
`timers` holds the pending `setTimeout` registrations as pairs
(handle id, absolute fire time); `hideTimeout` is the `this.hideTimeout`
field (a handle or `null`). -/
structure AppState where
  visible : Bool
  focusable : Bool
  ignoreMouseEvents : Bool
  hideTimeout : Option Nat
  timers : List (Nat × Nat)
  nextTimerId : Nat
  now : Nat
  trace : List Action
  deriving DecidableEq

/-- Initial state: the window is created with `show: false`; a fresh
`BrowserWindow` is focusable and receives mouse events; `hideTimeout`
starts as `null`. -/
def init : AppState :=
  { visible := false
    focusable := true
    ignoreMouseEvents := false
    hideTimeout := none
    timers := []
    nextTimerId := 0
    now := 0
    trace := [] }

/-- The pending timers due to fire once the clock reaches absolute time `t`. -/
def dueTimers (s : AppState) (t : Nat) : List (Nat × Nat) :=
  s.timers.filter (fun tm => decide (tm.2 ≤ t))

/-- Advance the clock to absolute time `t`, firing every timer due by `t`.
Each firing runs the callback of lines 94–97: `this.window.hide()` and
`this.hideTimeout = null`. -/
def advanceTo (s : AppState) (t : Nat) : AppState :=
  if (dueTimers s t).isEmpty then
    { s with now := t }
  else
    { s with
      now := t
      visible := false
      hideTimeout := none
      timers := s.timers.filter (fun tm => ! decide (tm.2 ≤ t))
      trace := s.trace ++ (dueTimers s t).map (fun _ => Action.hideCall) }

/-- The ``hide-window`` ipcMain handler
(lines 91–98): set `focusable` to `false`, ignore mouse events, and arm a
timer for `delay`, storing its handle in `this.hideTimeout`. -/
def hideWindow (s : AppState) (delay : Nat) : AppState :=
  { s with
    focusable := false
    ignoreMouseEvents := true
    hideTimeout := some s.nextTimerId
    timers := s.timers ++ [(s.nextTimerId, s.now + delay)]
    nextTimerId := s.nextTimerId + 1 }

/-- Lines 125–127: `if (this.hideTimeout) { clearTimeout(this.hideTimeout); }`.
`clearTimeout` removes the named timer from the pending set if it is still
pending (a no-op on an already-fired handle); the `hideTimeout` field itself
is NOT reset here — the source does not assign `null` to it. -/
def cancelPendingHide (s : AppState) : AppState :=
  match s.hideTimeout with
  | some id => { s with timers := s.timers.filter (fun tm => ! decide (tm.1 = id)) }
  | none => s

/-- The `.then(([window, pointer]) => …)` callback of `showMenu`
(lines 123–134): cancel a pending hide, log the focused window class, send
``show-menu`` with the pointer as the only payload, make the window
focusable, stop ignoring mouse events, and show the window. -/
def showMenuThen (s : AppState) (w : FocusedWindowInfo) (p : PointerPosition) : AppState :=
  let s1 := cancelPendingHide s
  { s1 with
    trace := s1.trace ++
      [Action.logMsg ("Currently focused window: " ++ w.wmClass),
       Action.sendShowMenu p,
       Action.showCall]
    focusable := true
    ignoreMouseEvents := false
    visible := true }

/-- The `.catch((err) => …)` callback (lines 136–138): log the error and
nothing else. -/
def showMenuCatch (s : AppState) (e : String) : AppState :=
  { s with trace := s.trace ++ [Action.logMsg ("Failed to show menu: " ++ e)] }

/-- Which of the two backend queries settled first. -/
inductive ArrivalOrder where
  | windowFirst : ArrivalOrder
  | pointerFirst : ArrivalOrder
  deriving DecidableEq

/-- `Promise.all([getFocusedWindow(), getPointer()])`: resolves with the
positional pair when both queries resolve; rejects with the first rejection
(if both reject, the one that settles first wins). -/
def promiseAll2 (order : ArrivalOrder) (wres : Except String FocusedWindowInfo)
    (pres : Except String PointerPosition) :
    Except String (FocusedWindowInfo × PointerPosition) :=
  match wres, pres with
  | Except.ok w, Except.ok p => Except.ok (w, p)
  | Except.error e, Except.ok _ => Except.error e
  | Except.ok _, Except.error e => Except.error e
  | Except.error e1, Except.error e2 =>
    match order with
    | ArrivalOrder.windowFirst => Except.error e1
    | ArrivalOrder.pointerFirst => Except.error e2

/-- The settlement of `showMenu()` (lines 121–139): dispatch on the
`Promise.all` outcome to the `.then` or `.catch` callback. -/
def showMenu (s : AppState) (order : ArrivalOrder)
    (wres : Except String FocusedWindowInfo)
    (pres : Except String PointerPosition) : AppState :=
  match promiseAll2 order wres pres with
  | Except.ok (w, p) => showMenuThen s w p
  | Except.error e => showMenuCatch s e

/-- The `ipcMain.on(`simulate-shortcut`, () => …)` handler (lines 108–116):
hide the window, then call `backend.simulateShortcut` with a combo chosen
from the OS platform.  The handler callback takes no payload argument. -/
def simulateShortcutHandler (s : AppState) (platform : String) : AppState :=
  { s with
    visible := false
    trace := s.trace ++
      [Action.hideCall,
       Action.simulate (if platform = "win32" then "Ctrl+Alt+Tab" else "Ctrl+Alt+Right")] }

/-- Events processed by the single-threaded event loop.
`triggerInvocation rd order wres pres` is a shortcut press whose two
backend queries settle `rd` milliseconds later with outcomes
`wres`/`pres`, arriving in `order`; `hideWindow d` is the inbound
``hide-window`` (request-hide) message; `elapse ms` lets `ms` milliseconds
pass; `simulateShortcut platform targetCombo` is the inbound
``simulate-shortcut`` message carrying a `targetCombo` payload, processed
on the given platform. -/
inductive Event where
  | triggerInvocation : Nat → ArrivalOrder → Except String FocusedWindowInfo →
      Except String PointerPosition → Event
  | hideWindow : Nat → Event
  | elapse : Nat → Event
  | simulateShortcut : String → String → Event

/-- One event-loop step.  For a shortcut press, timers due before the
queries settle fire first (the loop is not blocked while the promises are
pending); then the `.then`/`.catch` callback runs. -/
def step (s : AppState) : Event → AppState
  | Event.triggerInvocation rd order wres pres =>
    showMenu (advanceTo s (s.now + rd)) order wres pres
  | Event.hideWindow d => hideWindow s d
  | Event.elapse ms => advanceTo s (s.now + ms)
  | Event.simulateShortcut platform _targetCombo => simulateShortcutHandler s platform

/-- Run a sequence of events from the initial state. -/
def run (es : List Event) : AppState :=
  es.foldl step init

/-- The Overlay Surface Controller states of the specification, read off
the window attributes: hidden; visible and focusable (interactive);
visible but unfocusable/click-through (pending hide). -/
inductive SurfaceState where
  | hidden : SurfaceState
  | visibleInteractive : SurfaceState
  | visiblePendingHide : SurfaceState
  deriving DecidableEq

def surfaceState (s : AppState) : SurfaceState :=
  if s.visible then
    if s.focusable then SurfaceState.visibleInteractive
    else SurfaceState.visiblePendingHide
  else SurfaceState.hidden

/-- The `show-menu` payloads sent so far, in order. -/
def sentMenus (tr : List Action) : List PointerPosition :=
  tr.filterMap (fun a =>
    match a with
    | Action.sendShowMenu p => some p
    | _ => none)

def isHideCall : Action → Bool
  | Action.hideCall => true
  | _ => false

/-- Number of `window.hide()` calls recorded in the trace. -/
def hideCount (tr : List Action) : Nat :=
  (tr.filter isHideCall).length


theorem advanceTo_focusable (s : AppState) (t : Nat) :
    (advanceTo s t).focusable = s.focusable := by
  unfold advanceTo; split <;> rfl

theorem advanceTo_ignoreMouseEvents (s : AppState) (t : Nat) :
    (advanceTo s t).ignoreMouseEvents = s.ignoreMouseEvents := by
  unfold advanceTo; split <;> rfl

theorem cancelPendingHide_trace (s : AppState) :
    (cancelPendingHide s).trace = s.trace := by
  unfold cancelPendingHide
  rcases s.hideTimeout with _ | id <;> rfl

theorem foldl_step_inv (P : AppState → Prop)
    (hstep : ∀ s e, P s → P (step s e)) :
    ∀ (es : List Event) (s : AppState), P s → P (es.foldl step s)
  | [], _, h => h
  | e :: es, s, h => foldl_step_inv P hstep es (step s e) (hstep s e h)

theorem step_lockstep (s : AppState) (e : Event)
    (h : s.focusable = ! s.ignoreMouseEvents) :
    (step s e).focusable = ! (step s e).ignoreMouseEvents := by
  cases e with
  | triggerInvocation rd o wres pres =>
    simp only [step, showMenu]
    cases hp : promiseAll2 o wres pres with
    | ok wp =>
      obtain ⟨w, p⟩ := wp
      rfl
    | error err =>
      show (advanceTo s (s.now + rd)).focusable = ! (advanceTo s (s.now + rd)).ignoreMouseEvents
      rw [advanceTo_focusable, advanceTo_ignoreMouseEvents]
      exact h
  | hideWindow d => rfl
  | elapse ms =>
    show (advanceTo s (s.now + ms)).focusable = ! (advanceTo s (s.now + ms)).ignoreMouseEvents
    rw [advanceTo_focusable, advanceTo_ignoreMouseEvents]
    exact h
  | simulateShortcut pl tc => exact h

/-- Invariant: a visible but unfocusable surface (Visible-PendingHide)
always has a non-null `hideTimeout` handle. -/
def PendingHideImpliesTimer (s : AppState) : Prop :=
  s.visible = true → s.focusable = false → s.hideTimeout.isSome = true

theorem advanceTo_pendingHideImpliesTimer (s : AppState) (t : Nat)
    (h : PendingHideImpliesTimer s) : PendingHideImpliesTimer (advanceTo s t) := by
  unfold advanceTo
  split
  · exact h
  · intro hv
    exact absurd hv (by simp)

theorem step_pendingHideImpliesTimer (s : AppState) (e : Event)
    (h : PendingHideImpliesTimer s) : PendingHideImpliesTimer (step s e) := by
  cases e with
  | triggerInvocation rd o wres pres =>
    simp only [step, showMenu]
    cases hp : promiseAll2 o wres pres with
    | ok wp =>
      obtain ⟨w, p⟩ := wp
      intro hv hf
      exact absurd hf (by simp [showMenuThen])
    | error err =>
      exact advanceTo_pendingHideImpliesTimer s (s.now + rd) h
  | hideWindow d =>
    intro hv hf
    rfl
  | elapse ms =>
    exact advanceTo_pendingHideImpliesTimer s (s.now + ms) h
  | simulateShortcut pl tc =>
    intro hv
    exact absurd hv (by simp [step, simulateShortcutHandler])

theorem visible_of_interactive (s : AppState)
    (h : surfaceState s = SurfaceState.visibleInteractive) : s.visible = true := by
  unfold surfaceState at h
  by_cases hv : s.visible
  · exact hv
  · simp [hv] at h

theorem sentMenus_append (t1 t2 : List Action) :
    sentMenus (t1 ++ t2) = sentMenus t1 ++ sentMenus t2 :=
  List.filterMap_append t1 t2 _

theorem sentMenus_hideCalls (l : List (Nat × Nat)) :
    sentMenus (l.map (fun _ => Action.hideCall)) = [] := by
  induction l with
  | nil => rfl
  | cons a l _ih => simp [sentMenus, List.filterMap_cons]

theorem sentMenus_logMsg (m : String) : sentMenus [Action.logMsg m] = [] := rfl

theorem sentMenus_advanceTo (s : AppState) (t : Nat) :
    sentMenus (advanceTo s t).trace = sentMenus s.trace := by
  unfold advanceTo
  split
  · rfl
  · show sentMenus (s.trace ++ (dueTimers s t).map (fun _ => Action.hideCall)) = _
    rw [sentMenus_append, sentMenus_hideCalls, List.append_nil]

/-- Claim C1 (amended): if exactly one of the two context queries fails, the
rejection reaches the `.catch` handler: the failure is logged
("Failed to show menu: …") and NO "show-menu" event fires — the whole
invocation is aborted rather than surfacing a best-effort menu. -/
theorem c1_one_query_fails_aborts (s : AppState) (rd : Nat) (o : ArrivalOrder)
    (e : String) (w : FocusedWindowInfo) (p : PointerPosition) :
    (sentMenus (step s (Event.triggerInvocation rd o (Except.error e) (Except.ok p))).trace
        = sentMenus s.trace ∧
      (step s (Event.triggerInvocation rd o (Except.error e) (Except.ok p))).trace
        = (advanceTo s (s.now + rd)).trace ++ [Action.logMsg ("Failed to show menu: " ++ e)]) ∧
    (sentMenus (step s (Event.triggerInvocation rd o (Except.ok w) (Except.error e))).trace
        = sentMenus s.trace ∧
      (step s (Event.triggerInvocation rd o (Except.ok w) (Except.error e))).trace
        = (advanceTo s (s.now + rd)).trace ++ [Action.logMsg ("Failed to show menu: " ++ e)]) := by
  refine ⟨⟨?_, rfl⟩, ⟨?_, rfl⟩⟩ <;>
    · show sentMenus ((advanceTo s (s.now + rd)).trace ++ [Action.logMsg _]) = _
      rw [sentMenus_append, sentMenus_logMsg, List.append_nil, sentMenus_advanceTo]

/-- Claim C1, counterexample to the claim as stated: `getFocusedWindow`
rejects with a permission error while `getPointer` resolves to (512, 300);
no "show-menu" event fires at all — only the error log entry is produced. -/
theorem c1_counterexample :
    sentMenus (run [Event.triggerInvocation 0 ArrivalOrder.windowFirst
        (Except.error "permission error")
        (Except.ok (PointerPosition.mk 512 300))]).trace = [] ∧
    (run [Event.triggerInvocation 0 ArrivalOrder.windowFirst
        (Except.error "permission error")
        (Except.ok (PointerPosition.mk 512 300))]).trace
      = [Action.logMsg "Failed to show menu: permission error"] := by
  constructor <;> rfl

/-- Claim C2: with `getFocusedWindow` resolving to wmClass "firefox" and
`getPointer` to (512, 300), the code emits "show-menu" with ONLY the
pointer as payload (the focused-window info goes to the console log), not
the combined payload the claim describes. -/
theorem c2_payload_is_pointer_only :
    (run [Event.triggerInvocation 0 ArrivalOrder.windowFirst
        (Except.ok (FocusedWindowInfo.mk "firefox"))
        (Except.ok (PointerPosition.mk 512 300))]).trace =
      [Action.logMsg "Currently focused window: firefox",
       Action.sendShowMenu (PointerPosition.mk 512 300),
       Action.showCall] := by rfl

/-- Claim C3 (amended): after any event sequence, if the surface is
Visible-PendingHide then the hide-timer handle is non-null.  The converse
direction of the claimed equivalence fails (see the counterexample): a
cancelled invocation leaves a stale non-null handle in Visible-Interactive
because the then-callback calls `clearTimeout` without nulling the field. -/
theorem c3_pendingHide_implies_timer (es : List Event)
    (h : surfaceState (run es) = SurfaceState.visiblePendingHide) :
    (run es).hideTimeout.isSome = true := by
  have hinv : PendingHideImpliesTimer (run es) :=
    foldl_step_inv PendingHideImpliesTimer step_pendingHideImpliesTimer es init
      (fun hv => absurd hv (by simp [init]))
  unfold surfaceState at h
  by_cases hv : (run es).visible
  · by_cases hf : (run es).focusable
    · simp [hv, hf] at h
    · exact hinv hv (by simpa using hf)
  · simp [hv] at h

theorem c3_pendingHide_implies_timer_witness :
    surfaceState (run [Event.triggerInvocation 0 ArrivalOrder.windowFirst
        (Except.ok (FocusedWindowInfo.mk "a")) (Except.ok (PointerPosition.mk 0 0)),
      Event.hideWindow 100]) = SurfaceState.visiblePendingHide ∧
    (run [Event.triggerInvocation 0 ArrivalOrder.windowFirst
        (Except.ok (FocusedWindowInfo.mk "a")) (Except.ok (PointerPosition.mk 0 0)),
      Event.hideWindow 100]).hideTimeout.isSome = true :=
  ⟨by decide, c3_pendingHide_implies_timer
    [Event.triggerInvocation 0 ArrivalOrder.windowFirst
        (Except.ok (FocusedWindowInfo.mk "a")) (Except.ok (PointerPosition.mk 0 0)),
      Event.hideWindow 100] (by decide)⟩

/-- Claim C3, counterexample to the claimed equivalence: a request-hide
followed by a completed invocation leaves the surface Visible-Interactive
with a non-null (stale) `hideTimeout` handle, even though no timer is
pending any more. -/
theorem c3_counterexample :
    surfaceState (run [Event.triggerInvocation 0 ArrivalOrder.windowFirst
        (Except.ok (FocusedWindowInfo.mk "a")) (Except.ok (PointerPosition.mk 0 0)),
      Event.hideWindow 100,
      Event.triggerInvocation 0 ArrivalOrder.windowFirst
        (Except.ok (FocusedWindowInfo.mk "a")) (Except.ok (PointerPosition.mk 0 0))])
      = SurfaceState.visibleInteractive ∧
    (run [Event.triggerInvocation 0 ArrivalOrder.windowFirst
        (Except.ok (FocusedWindowInfo.mk "a")) (Except.ok (PointerPosition.mk 0 0)),
      Event.hideWindow 100,
      Event.triggerInvocation 0 ArrivalOrder.windowFirst
        (Except.ok (FocusedWindowInfo.mk "a")) (Except.ok (PointerPosition.mk 0 0))]).hideTimeout
      = some 0 ∧
    (run [Event.triggerInvocation 0 ArrivalOrder.windowFirst
        (Except.ok (FocusedWindowInfo.mk "a")) (Except.ok (PointerPosition.mk 0 0)),
      Event.hideWindow 100,
      Event.triggerInvocation 0 ArrivalOrder.windowFirst
        (Except.ok (FocusedWindowInfo.mk "a")) (Except.ok (PointerPosition.mk 0 0))]).timers
      = [] := by
  refine ⟨by decide, by decide, by decide⟩

theorem hideCount_append (t1 t2 : List Action) :
    hideCount (t1 ++ t2) = hideCount t1 + hideCount t2 := by
  unfold hideCount
  rw [List.filter_append, List.length_append]

/-- Claim C4 (amended): the pending hide is cancelled only inside the
then-callback, i.e. when both context queries have resolved — not when the
shortcut fires.  If both queries resolve strictly before the `d`-ms timer
fires, the surface ends Visible-Interactive, no `window.hide()` call
occurs, and the timer is descheduled by resolution time. -/
theorem c4_preemption_at_resolution (s : AppState) (d rd : Nat) (o : ArrivalOrder)
    (w : FocusedWindowInfo) (p : PointerPosition)
    (hT : s.timers = []) (hrd : rd < d) :
    surfaceState (step (step s (Event.hideWindow d))
        (Event.triggerInvocation rd o (Except.ok w) (Except.ok p)))
      = SurfaceState.visibleInteractive ∧
    hideCount (step (step s (Event.hideWindow d))
        (Event.triggerInvocation rd o (Except.ok w) (Except.ok p))).trace
      = hideCount s.trace ∧
    (step (step s (Event.hideWindow d))
        (Event.triggerInvocation rd o (Except.ok w) (Except.ok p))).timers = [] := by
  have hnle : ¬ (s.now + d ≤ s.now + rd) := by omega
  simp [step, showMenu, promiseAll2, showMenuThen, cancelPendingHide, hideWindow,
    advanceTo, dueTimers, hT, hnle, hrd, surfaceState, hideCount_append, hideCount,
    isHideCall]

theorem c4_preemption_at_resolution_witness :
    init.timers = [] ∧ 100 < 300 ∧
    (surfaceState (step (step init (Event.hideWindow 300))
        (Event.triggerInvocation 100 ArrivalOrder.windowFirst
          (Except.ok (FocusedWindowInfo.mk "f")) (Except.ok (PointerPosition.mk 1 2))))
      = SurfaceState.visibleInteractive ∧
    hideCount (step (step init (Event.hideWindow 300))
        (Event.triggerInvocation 100 ArrivalOrder.windowFirst
          (Except.ok (FocusedWindowInfo.mk "f")) (Except.ok (PointerPosition.mk 1 2)))).trace
      = hideCount init.trace ∧
    (step (step init (Event.hideWindow 300))
        (Event.triggerInvocation 100 ArrivalOrder.windowFirst
          (Except.ok (FocusedWindowInfo.mk "f")) (Except.ok (PointerPosition.mk 1 2)))).timers
      = []) :=
  ⟨rfl, by decide,
    c4_preemption_at_resolution init 300 100 ArrivalOrder.windowFirst
      (FocusedWindowInfo.mk "f") (PointerPosition.mk 1 2) rfl (by decide)⟩

/-- Claim C4, counterexample to the claim as stated: the cancel does NOT
happen when the shortcut fires.  With a request-hide of 5 ms and a
trigger-invocation arriving immediately (0 ms elapsed, strictly before
5 ms) whose queries take 10 ms to resolve, the armed timer fires while the
queries are still pending: one real `window.hide()` occurs in the
interval. -/
theorem c4_counterexample :
    hideCount (run [Event.triggerInvocation 0 ArrivalOrder.windowFirst
        (Except.ok (FocusedWindowInfo.mk "a")) (Except.ok (PointerPosition.mk 0 0)),
      Event.hideWindow 5,
      Event.triggerInvocation 10 ArrivalOrder.windowFirst
        (Except.ok (FocusedWindowInfo.mk "a")) (Except.ok (PointerPosition.mk 0 0))]).trace
      = 1 := by decide

/-- Claim C5: a request-hide(d) on a Visible-Interactive surface sets
focusable=false and input-pass-through=true immediately while the window
stays visible; the window is hidden exactly when the d-ms timer elapses,
at which point the timer callback also resets the handle to null. -/
theorem c5_requestHide_lifecycle (s : AppState) (d t : Nat)
    (hI : surfaceState s = SurfaceState.visibleInteractive)
    (hT : s.timers = []) :
    (step s (Event.hideWindow d)).focusable = false ∧
    (step s (Event.hideWindow d)).ignoreMouseEvents = true ∧
    (step s (Event.hideWindow d)).visible = true ∧
    (step s (Event.hideWindow d)).hideTimeout = some s.nextTimerId ∧
    (t < d →
      (step (step s (Event.hideWindow d)) (Event.elapse t)).visible = true ∧
      (step (step s (Event.hideWindow d)) (Event.elapse t)).hideTimeout
        = some s.nextTimerId) ∧
    (d ≤ t →
      (step (step s (Event.hideWindow d)) (Event.elapse t)).visible = false ∧
      (step (step s (Event.hideWindow d)) (Event.elapse t)).hideTimeout = none) := by
  have hv : s.visible = true := visible_of_interactive s hI
  refine ⟨rfl, rfl, hv, rfl, ?_, ?_⟩
  · intro hlt
    have hnle : ¬ (s.now + d ≤ s.now + t) := by omega
    constructor <;>
      simp [step, hideWindow, advanceTo, dueTimers, hT, hnle, hlt, hv]
  · intro hle
    have hnlt : ¬ t < d := Nat.not_lt.mpr hle
    have hle2 : s.now + d ≤ s.now + t := by omega
    constructor <;>
      simp [step, hideWindow, advanceTo, dueTimers, hT, hle2, hnlt]

theorem c5_requestHide_lifecycle_witness :
    surfaceState (run [Event.triggerInvocation 0 ArrivalOrder.windowFirst
        (Except.ok (FocusedWindowInfo.mk "a")) (Except.ok (PointerPosition.mk 0 0))])
      = SurfaceState.visibleInteractive ∧
    (run [Event.triggerInvocation 0 ArrivalOrder.windowFirst
        (Except.ok (FocusedWindowInfo.mk "a")) (Except.ok (PointerPosition.mk 0 0))]).timers
      = [] ∧
    ((step (run [Event.triggerInvocation 0 ArrivalOrder.windowFirst
        (Except.ok (FocusedWindowInfo.mk "a")) (Except.ok (PointerPosition.mk 0 0))])
        (Event.hideWindow 300)).focusable = false ∧
      (step (run [Event.triggerInvocation 0 ArrivalOrder.windowFirst
        (Except.ok (FocusedWindowInfo.mk "a")) (Except.ok (PointerPosition.mk 0 0))])
        (Event.hideWindow 300)).ignoreMouseEvents = true ∧
      (step (run [Event.triggerInvocation 0 ArrivalOrder.windowFirst
        (Except.ok (FocusedWindowInfo.mk "a")) (Except.ok (PointerPosition.mk 0 0))])
        (Event.hideWindow 300)).visible = true ∧
      (step (run [Event.triggerInvocation 0 ArrivalOrder.windowFirst
        (Except.ok (FocusedWindowInfo.mk "a")) (Except.ok (PointerPosition.mk 0 0))])
        (Event.hideWindow 300)).hideTimeout
        = some (run [Event.triggerInvocation 0 ArrivalOrder.windowFirst
        (Except.ok (FocusedWindowInfo.mk "a")) (Except.ok (PointerPosition.mk 0 0))]).nextTimerId ∧
      (300 < 300 →
        (step (step (run [Event.triggerInvocation 0 ArrivalOrder.windowFirst
          (Except.ok (FocusedWindowInfo.mk "a")) (Except.ok (PointerPosition.mk 0 0))])
          (Event.hideWindow 300)) (Event.elapse 300)).visible = true ∧
        (step (step (run [Event.triggerInvocation 0 ArrivalOrder.windowFirst
          (Except.ok (FocusedWindowInfo.mk "a")) (Except.ok (PointerPosition.mk 0 0))])
          (Event.hideWindow 300)) (Event.elapse 300)).hideTimeout
          = some (run [Event.triggerInvocation 0 ArrivalOrder.windowFirst
          (Except.ok (FocusedWindowInfo.mk "a")) (Except.ok (PointerPosition.mk 0 0))]).nextTimerId) ∧
      (300 ≤ 300 →
        (step (step (run [Event.triggerInvocation 0 ArrivalOrder.windowFirst
          (Except.ok (FocusedWindowInfo.mk "a")) (Except.ok (PointerPosition.mk 0 0))])
          (Event.hideWindow 300)) (Event.elapse 300)).visible = false ∧
        (step (step (run [Event.triggerInvocation 0 ArrivalOrder.windowFirst
          (Except.ok (FocusedWindowInfo.mk "a")) (Except.ok (PointerPosition.mk 0 0))])
          (Event.hideWindow 300)) (Event.elapse 300)).hideTimeout = none)) :=
  ⟨by decide, by decide,
    c5_requestHide_lifecycle
      (run [Event.triggerInvocation 0 ArrivalOrder.windowFirst
        (Except.ok (FocusedWindowInfo.mk "a")) (Except.ok (PointerPosition.mk 0 0))])
      300 300 (by decide) (by decide)⟩

/-- Claim C6: `setFocusable` and `setIgnoreMouseEvents` are always called
as a pair, so after any event sequence the surface is focusable exactly
when it is not click-through — never focusable and click-through at once,
and never unfocusable yet accepting clicks. -/
theorem c6_focus_passthrough_lockstep (es : List Event) :
    (run es).focusable = ! (run es).ignoreMouseEvents :=
  foldl_step_inv (fun s => s.focusable = ! s.ignoreMouseEvents)
    step_lockstep es init rfl

/-- Claim C7: cancelling the pending hide when no timer handle is armed is
a state-preserving no-op — the handle is tested (`if (this.hideTimeout)`)
before `clearTimeout` is attempted, and the cancel is a total function, so
it can never raise. -/
theorem c7_cancel_without_timer_noop (s : AppState)
    (h : s.hideTimeout = none) : cancelPendingHide s = s := by
  unfold cancelPendingHide
  rw [h]

theorem c7_cancel_without_timer_noop_witness :
    init.hideTimeout = none ∧ cancelPendingHide init = init :=
  ⟨rfl, c7_cancel_without_timer_noop init rfl⟩

/-- Claim C8: when both context queries resolve, the state produced by the
invocation is identical whichever of `getFocusedWindow` and `getPointer`
settles first — `Promise.all` combines the results positionally, so the
combined context is independent of arrival order. -/
theorem c8_resolution_order_irrelevant (s : AppState) (rd : Nat)
    (o1 o2 : ArrivalOrder) (w : FocusedWindowInfo) (p : PointerPosition) :
    step s (Event.triggerInvocation rd o1 (Except.ok w) (Except.ok p)) =
      step s (Event.triggerInvocation rd o2 (Except.ok w) (Except.ok p)) := rfl

/-- Claim C9 (amended): the `simulate-shortcut` handler hides the overlay
first and then invokes `backend.simulateShortcut`, but with a combo chosen
from the OS platform (Ctrl+Alt+Tab on win32, Ctrl+Alt+Right otherwise);
the inbound `targetCombo` payload is ignored by the handler. -/
theorem c9_hide_then_platform_combo (s : AppState)
    (platform targetCombo : String) :
    (step s (Event.simulateShortcut platform targetCombo)).trace =
      s.trace ++ [Action.hideCall,
        Action.simulate
          (if platform = "win32" then "Ctrl+Alt+Tab" else "Ctrl+Alt+Right")] := rfl

/-- Claim C9, counterexample to the claim as stated: on linux a
`simulate-shortcut` command with `targetCombo` "Alt+F4" still results in
`simulateShortcut "Ctrl+Alt+Right"` — the combo is not the one named by
the payload. -/
theorem c9_counterexample :
    (run [Event.simulateShortcut "linux" "Alt+F4"]).trace =
      [Action.hideCall, Action.simulate "Ctrl+Alt+Right"] ∧
    Action.simulate "Ctrl+Alt+Right" ≠ Action.simulate "Alt+F4" := by
  constructor
  · rfl
  · decide

/-- Claim C10: if `Promise.all` over the two context queries rejects, the
invocation changes nothing beyond the clock: visibility, focusability,
input-pass-through, the timer handle and the pending timers (none of which
are cancelled) are all exactly as before, and the only new observable
action is the error log entry. -/
theorem c10_rejection_atomicity (s : AppState) (rd : Nat) (o : ArrivalOrder)
    (wres : Except String FocusedWindowInfo) (pres : Except String PointerPosition)
    (e : String)
    (hres : promiseAll2 o wres pres = Except.error e)
    (hdue : ∀ tm ∈ s.timers, s.now + rd < tm.2) :
    step s (Event.triggerInvocation rd o wres pres) =
      { s with
        now := s.now + rd
        trace := s.trace ++ [Action.logMsg ("Failed to show menu: " ++ e)] } := by
  have hemp : dueTimers s (s.now + rd) = [] := by
    unfold dueTimers
    refine List.filter_eq_nil_iff.mpr ?_
    intro tm hm
    simpa using Nat.not_le.mpr (hdue tm hm)
  simp only [step, showMenu, hres]
  unfold showMenuCatch advanceTo
  rw [hemp]
  rfl

theorem c10_rejection_atomicity_witness :
    promiseAll2 ArrivalOrder.windowFirst
      (Except.error "EPERM" : Except String FocusedWindowInfo)
      (Except.ok (PointerPosition.mk 1 2)) = Except.error "EPERM" ∧
    (∀ tm ∈ (run [Event.triggerInvocation 0 ArrivalOrder.windowFirst
        (Except.ok (FocusedWindowInfo.mk "a")) (Except.ok (PointerPosition.mk 0 0)),
      Event.hideWindow 100]).timers,
      (run [Event.triggerInvocation 0 ArrivalOrder.windowFirst
        (Except.ok (FocusedWindowInfo.mk "a")) (Except.ok (PointerPosition.mk 0 0)),
      Event.hideWindow 100]).now + 30 < tm.2) ∧
    step (run [Event.triggerInvocation 0 ArrivalOrder.windowFirst
        (Except.ok (FocusedWindowInfo.mk "a")) (Except.ok (PointerPosition.mk 0 0)),
      Event.hideWindow 100])
      (Event.triggerInvocation 30 ArrivalOrder.windowFirst
        (Except.error "EPERM") (Except.ok (PointerPosition.mk 1 2))) =
      { run [Event.triggerInvocation 0 ArrivalOrder.windowFirst
          (Except.ok (FocusedWindowInfo.mk "a")) (Except.ok (PointerPosition.mk 0 0)),
        Event.hideWindow 100] with
        now := (run [Event.triggerInvocation 0 ArrivalOrder.windowFirst
          (Except.ok (FocusedWindowInfo.mk "a")) (Except.ok (PointerPosition.mk 0 0)),
        Event.hideWindow 100]).now + 30
        trace := (run [Event.triggerInvocation 0 ArrivalOrder.windowFirst
          (Except.ok (FocusedWindowInfo.mk "a")) (Except.ok (PointerPosition.mk 0 0)),
        Event.hideWindow 100]).trace
          ++ [Action.logMsg ("Failed to show menu: " ++ "EPERM")] } :=
  ⟨rfl, by decide,
    c10_rejection_atomicity
      (run [Event.triggerInvocation 0 ArrivalOrder.windowFirst
        (Except.ok (FocusedWindowInfo.mk "a")) (Except.ok (PointerPosition.mk 0 0)),
      Event.hideWindow 100])
      30 ArrivalOrder.windowFirst (Except.error "EPERM")
      (Except.ok (PointerPosition.mk 1 2)) "EPERM" rfl (by decide)⟩

end KenDo
